import Mathlib

/-!
Verification of the TicketKini booking core: a shallow embedding of the
seat-availability, booking-lifecycle, pricing, coupon, refund and payment
logic of the repository (backend/services/booking_service.py,
backend/routes/payment.py, backend/routes/seat_availability.py,
backend/routes/cancel.py, backend/models/booking.py,
backend/database/models/coupon.py), together with theorems settling the
specification's claims about that code.

Modelling conventions: SQLAlchemy rows become Lean structures, the database
becomes explicit lists carried in a `World` record, datetimes become `Nat`
timestamps (minutes) and calendar dates become `Nat` day ordinals, Python
floats become `ℚ`, and `None`-able columns become `Option`.  `round(x, 2)`
is modelled as rounding to a multiple of 1/100 (half up; Python uses
half-to-even, which agrees everywhere the claims evaluate it).
-/

namespace TicketKini

/-- Booking lifecycle states, from backend/database/models/booking.py
(`BookingStatusEnum`; the Pydantic `BookingStatus` omits COMPLETED, which no
code path ever writes to a booking). -/
inductive BookingStatus where
  | CART
  | PENDING
  | CONFIRMED
  | CANCELLED
  | EXPIRED
  | COMPLETED
  deriving DecidableEq, Repr

/-- Payment states, from backend/database/models/payment.py (`PaymentStatusEnum`). -/
inductive PaymentStatus where
  | PENDING
  | PROCESSING
  | COMPLETED
  | FAILED
  | REFUNDED
  | CANCELLED
  deriving DecidableEq, Repr

/-- A vehicle row: `total_seats` and the `class_prices` JSON map (modelled as
an association list; `[]` models both a missing and an empty mapping, which
Python treats identically via `if not vehicle.class_prices`). -/
structure Vehicle where
  id : Nat
  totalSeats : Nat
  classPrices : List (String × ℚ)
  deriving DecidableEq, Repr

/-- A schedule row: binds a vehicle, an active flag and the authoritative
economy `base_price` (nullable). -/
structure Schedule where
  id : Nat
  vehicleId : Nat
  isActive : Bool
  basePrice : Option ℚ
  deriving DecidableEq, Repr

/-- A booking row (backend/database/models/booking.py). `travelDate` is a day
ordinal, `expiresAt` a minute timestamp. -/
structure Booking where
  id : Nat
  userId : Nat
  scheduleId : Nat
  seats : List Nat
  seatClass : String
  totalPrice : ℚ
  status : BookingStatus
  travelDate : Nat
  expiresAt : Nat
  cancelledAt : Option Nat
  cancellationReason : Option String
  pnr : Option String
  deriving DecidableEq, Repr

/-- A payment row (backend/database/models/payment.py), one-to-one with a
booking. -/
structure Payment where
  id : Nat
  bookingId : Nat
  userId : Nat
  amount : ℚ
  discountAmount : ℚ
  finalAmount : ℚ
  status : PaymentStatus
  gatewayResponse : Option String
  transactionId : Option String
  couponCode : Option String
  deriving DecidableEq, Repr

/-- `CouponType` (backend/database/models/coupon.py). -/
inductive CouponType where
  | PERCENTAGE
  | FIXED_AMOUNT
  | FIRST_TIME
  | SEASONAL
  deriving DecidableEq, Repr

/-- A coupon row (backend/database/models/coupon.py); validity instants are
minute timestamps.  `Option` models nullable columns; the `≠ 0` guards in the
functions below mirror Python truthiness on numeric columns. -/
structure Coupon where
  code : String
  couponType : CouponType
  discountPercent : Option ℚ
  discountAmount : Option ℚ
  minOrderValue : ℚ
  maxDiscount : Option ℚ
  usageLimit : Option Nat
  usageCount : Nat
  userUsageLimit : Option Nat
  isActive : Bool
  validFrom : Option Nat
  validUntil : Option Nat
  deriving DecidableEq, Repr

/-- The database plus the clock: `today` is the current day ordinal
(`datetime.now().date()`), `now` the current minute timestamp
(`datetime.now()`), and the `next…Id` fields model autoincrement keys. -/
structure World where
  schedules : List Schedule
  vehicles : List Vehicle
  bookings : List Booking
  payments : List Payment
  coupons : List Coupon
  today : Nat
  now : Nat
  nextBookingId : Nat
  nextPaymentId : Nat
  deriving Repr

/-- `select(Schedule).where(Schedule.id == sid)` — first row by primary key. -/
def findSchedule : List Schedule → Nat → Option Schedule
  | [], _ => none
  | s :: rest, sid => if s.id = sid then some s else findSchedule rest sid

/-- `select(Vehicle).where(Vehicle.id == vid)` — first row by primary key. -/
def findVehicle : List Vehicle → Nat → Option Vehicle
  | [], _ => none
  | v :: rest, vid => if v.id = vid then some v else findVehicle rest vid

/-- `select(Schedule, Vehicle).join(Vehicle).where(Schedule.id == sid)`:
the schedule joined with its vehicle. -/
def findScheduleVehicle (schedules : List Schedule) (vehicles : List Vehicle)
    (sid : Nat) : Option (Schedule × Vehicle) :=
  match findSchedule schedules sid with
  | none => none
  | some s =>
    match findVehicle vehicles s.vehicleId with
    | none => none
    | some v => some (s, v)

/-- `select(Booking).where(Booking.id == bid)`. -/
def findBooking : List Booking → Nat → Option Booking
  | [], _ => none
  | b :: rest, bid => if b.id = bid then some b else findBooking rest bid

/-- `select(Payment).where(Payment.booking_id == bid)` (unique per booking). -/
def findPaymentByBooking : List Payment → Nat → Option Payment
  | [], _ => none
  | p :: rest, bid => if p.bookingId = bid then some p else findPaymentByBooking rest bid

/-- Statuses whose bookings occupy seats: the
`Booking.status.in_([BookingStatus.CONFIRMED, BookingStatus.PENDING])`
filter of the availability queries. -/
def occupiesSeat : BookingStatus → Bool
  | .CONFIRMED => true
  | .PENDING => true
  | _ => false

/-- The optional `func.date(Booking.travel_date) == travel_date_obj` filter:
applied only when a travel date was supplied. -/
def matchesTravelDate (b : Booking) : Option Nat → Bool
  | some d => b.travelDate == d
  | none => true

/-- The occupied-seat computation shared by
`BookingService.check_availability` and `get_seat_availability`: query the
bookings of the schedule with status CONFIRMED/PENDING (optionally filtered
by travel date) and flatten their seat lists. -/
def bookedSeats : List Booking → Nat → Option Nat → List Nat
  | [], _, _ => []
  | b :: rest, sid, d =>
    (if b.scheduleId == sid && occupiesSeat b.status && matchesTravelDate b d
      then b.seats else []) ++ bookedSeats rest sid d

theorem mem_bookedSeats_iff (bs : List Booking) (sid : Nat) (d : Option Nat) (s : Nat) :
    s ∈ bookedSeats bs sid d ↔
      ∃ b, b ∈ bs ∧ b.scheduleId = sid ∧ occupiesSeat b.status = true ∧
        matchesTravelDate b d = true ∧ s ∈ b.seats := by
  induction bs with
  | nil => simp [bookedSeats]
  | cons b rest ih =>
    simp only [bookedSeats, List.mem_append, ih, List.mem_cons]
    constructor
    · rintro (hmem | ⟨b', hb', hsch, hst, hd, hs⟩)
      · by_cases hcond : (b.scheduleId == sid && occupiesSeat b.status &&
          matchesTravelDate b d) = true
        · refine ⟨b, Or.inl rfl, ?_, ?_, ?_, ?_⟩ <;>
            simp only [Bool.and_eq_true, beq_iff_eq] at hcond
          · exact hcond.1.1
          · exact hcond.1.2
          · exact hcond.2
          · simpa [hcond] using hmem
        · simp [hcond] at hmem
      · exact ⟨b', Or.inr hb', hsch, hst, hd, hs⟩
    · rintro ⟨b', hb' | hb', hsch, hst, hd, hs⟩
      · subst hb'
        left
        simp [hsch, hst, hd, hs]
      · right
        exact ⟨b', hb', hsch, hst, hd, hs⟩

/-- C2: a seat is occupied for a (schedule, travel date) pair iff some
booking for that schedule with that travel date has status PENDING or
CONFIRMED and lists the seat; CART, CANCELLED and EXPIRED bookings never
contribute to the occupied set. -/
theorem occupied_iff_active_booking (bs : List Booking) (sid d s : Nat) :
    s ∈ bookedSeats bs sid (some d) ↔
      ∃ b, b ∈ bs ∧ b.scheduleId = sid ∧ b.travelDate = d ∧
        (b.status = BookingStatus.PENDING ∨ b.status = BookingStatus.CONFIRMED) ∧
        s ∈ b.seats := by
  rw [mem_bookedSeats_iff]
  constructor
  · rintro ⟨b, hb, hsch, hst, hd, hs⟩
    refine ⟨b, hb, hsch, ?_, ?_, hs⟩
    · simpa [matchesTravelDate] using hd
    · cases hcase : b.status <;> simp [occupiesSeat, hcase] at hst ⊢
  · rintro ⟨b, hb, hsch, hd, hst, hs⟩
    refine ⟨b, hb, hsch, ?_, ?_, hs⟩
    · rcases hst with h | h <;> simp [occupiesSeat, h]
    · simp [matchesTravelDate, hd]

/-- Python's `str.upper()` (character-wise uppercase; the repository's seat
classes and coupon codes are ASCII). -/
def upperString (s : String) : String := ⟨s.data.map Char.toUpper⟩

/-- The case-sensitive `if normalized in vehicle.class_prices` lookup of
`_get_price_for_class`. -/
def lookupExact : List (String × ℚ) → String → Option ℚ
  | [], _ => none
  | kv :: rest, key => if kv.1 = key then some kv.2 else lookupExact rest key

/-- The case-insensitive fallback loop of `_get_price_for_class`
(`str(class_name).upper() == normalized`). -/
def lookupUpper : List (String × ℚ) → String → Option ℚ
  | [], _ => none
  | kv :: rest, key => if upperString kv.1 = key then some kv.2 else lookupUpper rest key

/-- `schedule is not None and normalized == 'ECONOMY' and
schedule.base_price is not None` — the economy fallback to the schedule's
base price used by `_get_price_for_class`. -/
def economyFallback (normalized : String) : Option Schedule → Option ℚ
  | some sch => if normalized = "ECONOMY" then sch.basePrice else none
  | none => none

/-- `BookingService._get_price_for_class`: normalize the class name, try
`vehicle.class_prices` (exact key, then case-insensitive), and only when the
mapping is missing/empty or lacks the class fall back to
`schedule.base_price` for ECONOMY. -/
def get_price_for_class (vehicle : Vehicle) (seatClass : String)
    (schedule : Option Schedule) : Option ℚ :=
  let normalized := upperString seatClass
  if vehicle.classPrices.isEmpty then
    economyFallback normalized schedule
  else
    match lookupExact vehicle.classPrices normalized with
    | some price => some price
    | none =>
      match lookupUpper vehicle.classPrices normalized with
      | some price => some price
      | none => economyFallback normalized schedule

/-- Availability outcomes of `BookingService.check_availability`; each
non-`ok` constructor corresponds to one of its failure messages. -/
inductive AvailResult where
  | notFound
  | notActive
  | pastJourney
  | seatsTaken (conflicting : List Nat)
  | invalidSeats (bad : List Nat)
  | classUnavailable (seatClass : String)
  | ok (pricePerSeat : ℚ) (totalPrice : ℚ)
  deriving DecidableEq, Repr

/-- The `message` field of the dict `check_availability` returns. -/
def AvailResult.message : AvailResult → String
  | .notFound => "Schedule not found"
  | .notActive => "Schedule is not active"
  | .pastJourney => "Cannot book past journeys"
  | .seatsTaken conflicting => "Seats " ++ toString conflicting ++ " are already booked"
  | .invalidSeats bad => "Invalid seat numbers: " ++ toString bad
  | .classUnavailable seatClass => "Class " ++ seatClass ++ " not available"
  | .ok _ _ => "OK"

/-- `AvailResult.isAvailable` — the `available` flag of the returned dict. -/
def AvailResult.isAvailable : AvailResult → Bool
  | .ok _ _ => true
  | _ => false

/-- `BookingService.check_availability`: resolve schedule+vehicle, check the
schedule is active and the travel date not past, compute the occupied set,
reject seat conflicts, reject out-of-range seat numbers, resolve the class
price, and price the request. -/
def check_availability (w : World) (scheduleId : Nat) (seats : List Nat)
    (seatClass : String) (travelDate : Option Nat) : AvailResult :=
  match findScheduleVehicle w.schedules w.vehicles scheduleId with
  | none => .notFound
  | some (schedule, vehicle) =>
    if schedule.isActive = false then .notActive
    else if (match travelDate with
        | some d => decide (d < w.today)
        | none => false) then .pastJourney
    else
      let booked := bookedSeats w.bookings scheduleId travelDate
      let conflicting := seats.filter (fun s => booked.contains s)
      if conflicting.isEmpty = false then .seatsTaken conflicting
      else
        let invalid := seats.filter (fun s => decide (s < 1) || decide (vehicle.totalSeats < s))
        if invalid.isEmpty = false then .invalidSeats invalid
        else
          match get_price_for_class vehicle seatClass (some schedule) with
          | none => .classUnavailable seatClass
          | some price => .ok price (price * (seats.length : ℚ))

/-- `get_seat_availability` (backend/routes/seat_availability.py): for a
schedule and optional travel date, return the `available_seat_numbers` and
`booked_seat_numbers` lists (`all_seats = range(1, total_seats + 1)`,
`available = [s for s in all_seats if s not in booked_seats]`; the route
additionally sorts both lists, which does not change their members). -/
def get_seat_availability (w : World) (scheduleId : Nat)
    (travelDate : Option Nat) : Option (List Nat × List Nat) :=
  match findScheduleVehicle w.schedules w.vehicles scheduleId with
  | none => none
  | some (_, vehicle) =>
    let booked := bookedSeats w.bookings scheduleId travelDate
    let allSeats := List.range' 1 vehicle.totalSeats
    let available := allSeats.filter (fun s => booked.contains s = false)
    some (available, booked)

/-- C3: whenever the seat-availability query resolves a schedule, the
available and booked seat-number lists it returns are disjoint and (given
that every booking of the schedule holds seat numbers within
`1..total_seats`, which booking creation enforces) their union is exactly
the seat set `1..vehicle.total_seats`. -/
theorem availability_partitions_seats (w : World) (scheduleId : Nat) (d : Option Nat)
    (sch : Schedule) (veh : Vehicle) (avail booked : List Nat)
    (hsv : findScheduleVehicle w.schedules w.vehicles scheduleId = some (sch, veh))
    (hres : get_seat_availability w scheduleId d = some (avail, booked))
    (hrange : ∀ b ∈ w.bookings, b.scheduleId = scheduleId →
      ∀ s ∈ b.seats, 1 ≤ s ∧ s ≤ veh.totalSeats) :
    (∀ s, s ∈ avail → s ∉ booked) ∧
    (∀ s, (s ∈ avail ∨ s ∈ booked) ↔ (1 ≤ s ∧ s ≤ veh.totalSeats)) := by
  simp only [get_seat_availability, hsv, Option.some.injEq, Prod.mk.injEq] at hres
  obtain ⟨ha, hb⟩ := hres
  subst ha hb
  have hbooked_range : ∀ s, s ∈ bookedSeats w.bookings scheduleId d →
      1 ≤ s ∧ s ≤ veh.totalSeats := by
    intro s hs
    rw [mem_bookedSeats_iff] at hs
    obtain ⟨b, hbmem, hsch, _, _, hseat⟩ := hs
    exact hrange b hbmem hsch s hseat
  constructor
  · intro s hs
    rw [List.mem_filter] at hs
    simpa using hs.2
  · intro s
    constructor
    · rintro (hs | hs)
      · rw [List.mem_filter] at hs
        have := hs.1
        simp only [List.mem_range'_1] at this
        omega
      · exact hbooked_range s hs
    · rintro ⟨h1, h2⟩
      by_cases hmem : s ∈ bookedSeats w.bookings scheduleId d
      · exact Or.inr hmem
      · refine Or.inl ?_
        rw [List.mem_filter]
        constructor
        · simp only [List.mem_range'_1]
          omega
        · simpa using hmem

/-- Concrete vehicle for the C4 counterexample: a stale economy entry in
`class_prices`. -/
def c4Vehicle : Vehicle := { id := 1, totalSeats := 40, classPrices := [("economy", 999)] }

/-- Concrete schedule for the C4 counterexample: an authoritative base price
differing from the vehicle-level economy price. -/
def c4Schedule : Schedule := { id := 1, vehicleId := 1, isActive := true, basePrice := some 500 }

/-- C4 counterexample: with `class_prices = {"economy": 999}` and
`base_price = 500`, `_get_price_for_class` resolves ECONOMY to 999 — the
vehicle-level economy entry wins over the schedule's base price, so the
claim that base price always wins is false. -/
theorem economy_price_base_price_cex :
    c4Schedule.basePrice = some 500 ∧
    get_price_for_class c4Vehicle "ECONOMY" (some c4Schedule) = some 999 ∧
    get_price_for_class c4Vehicle "ECONOMY" (some c4Schedule) ≠ some 500 := by
  refine ⟨rfl, by decide, by decide⟩

/-- C4 amended: ECONOMY resolves to the `class_prices` entry whenever one
matches (exact key first, then case-insensitively); the schedule's
`base_price` is used only when no economy key exists in `class_prices`
(including when the mapping is missing/empty). -/
theorem economy_price_resolution (veh : Vehicle) (sch : Schedule) :
    (∀ q, lookupExact veh.classPrices "ECONOMY" = some q →
      get_price_for_class veh "ECONOMY" (some sch) = some q) ∧
    (lookupExact veh.classPrices "ECONOMY" = none →
      ∀ q, lookupUpper veh.classPrices "ECONOMY" = some q →
        get_price_for_class veh "ECONOMY" (some sch) = some q) ∧
    (lookupExact veh.classPrices "ECONOMY" = none →
      lookupUpper veh.classPrices "ECONOMY" = none →
      get_price_for_class veh "ECONOMY" (some sch) = sch.basePrice) := by
  have hnorm : upperString "ECONOMY" = "ECONOMY" := by decide
  refine ⟨?_, ?_, ?_⟩
  · intro q hq
    have hne : veh.classPrices.isEmpty = false := by
      cases hcp : veh.classPrices with
      | nil => rw [hcp] at hq; simp [lookupExact] at hq
      | cons kv rest => simp [List.isEmpty]
    simp [get_price_for_class, hnorm, hne, hq]
  · intro hnone q hq
    have hne : veh.classPrices.isEmpty = false := by
      cases hcp : veh.classPrices with
      | nil => rw [hcp] at hq; simp [lookupUpper] at hq
      | cons kv rest => simp [List.isEmpty]
    simp [get_price_for_class, hnorm, hne, hnone, hq]
  · intro hnone hnone'
    by_cases hcp : veh.classPrices.isEmpty
    · simp [get_price_for_class, hnorm, hcp, economyFallback]
    · simp [get_price_for_class, hnorm, hcp, hnone, hnone', economyFallback]

/-- Witness for the C4 amended theorem: on the concrete counterexample data
the case-insensitive economy entry (999) is returned. -/
theorem economy_price_resolution_witness :
    get_price_for_class c4Vehicle "ECONOMY" (some c4Schedule) = some 999 :=
  (economy_price_resolution c4Vehicle c4Schedule).2.1 (by decide) 999 (by decide)

/-- Python's `round(x, 2)`: round to a multiple of 1/100 (modelled half-up;
Python rounds half-to-even, which agrees at every value the claims and
theorems below evaluate). -/
def round2 (q : ℚ) : ℚ := (⌊q * 100 + 1/2⌋ : ℚ) / 100

/-- The tier table of `calculate_refund_amount` (backend/routes/payment.py):
refund percentage keyed on hours before departure. -/
def refund_percentage (hoursBefore : ℚ) : ℚ :=
  if 48 ≤ hoursBefore then 90/100
  else if 24 ≤ hoursBefore then 75/100
  else if 12 ≤ hoursBefore then 50/100
  else if 4 ≤ hoursBefore then 25/100
  else 0

/-- The flat-minimum rule of `calculate_refund_amount`: a positive refund
below 50 is zeroed (processing-fee coverage). -/
def apply_min_refund (refundAmount : ℚ) : ℚ :=
  if 0 < refundAmount ∧ refundAmount < 50 then 0 else refundAmount

/-- `calculate_refund_amount` (backend/routes/payment.py): `bookingDate`
(the travel/departure datetime) and `cancellationDate` are hour timestamps,
so `hours_before = (booking_date - cancellation_date).total_seconds()/3600`
becomes a subtraction; the tier percentage is applied, positive refunds
under the flat minimum are zeroed, and the result is rounded to two
decimals. -/
def calculate_refund_amount (originalAmount bookingDate cancellationDate : ℚ) : ℚ :=
  round2 (apply_min_refund
    (originalAmount * refund_percentage (bookingDate - cancellationDate)))

theorem refund_percentage_ge48 (x : ℚ) (h : 48 ≤ x) : refund_percentage x = 90/100 := by
  rw [refund_percentage, if_pos h]

theorem refund_percentage_24 (x : ℚ) (h1 : 24 ≤ x) (h2 : x < 48) :
    refund_percentage x = 75/100 := by
  rw [refund_percentage, if_neg (by linarith), if_pos h1]

theorem refund_percentage_12 (x : ℚ) (h1 : 12 ≤ x) (h2 : x < 24) :
    refund_percentage x = 50/100 := by
  rw [refund_percentage, if_neg (by linarith), if_neg (by linarith), if_pos h1]

theorem refund_percentage_4 (x : ℚ) (h1 : 4 ≤ x) (h2 : x < 12) :
    refund_percentage x = 25/100 := by
  rw [refund_percentage, if_neg (by linarith), if_neg (by linarith),
    if_neg (by linarith), if_pos h1]

theorem refund_percentage_lt4 (x : ℚ) (h : x < 4) : refund_percentage x = 0 := by
  rw [refund_percentage, if_neg (by linarith), if_neg (by linarith),
    if_neg (by linarith), if_neg (by linarith)]

theorem apply_min_refund_of_ge (r : ℚ) (h : 50 ≤ r) : apply_min_refund r = r := by
  rw [apply_min_refund, if_neg]
  intro hcon
  linarith [hcon.2]

theorem apply_min_refund_small (r : ℚ) (h1 : 0 < r) (h2 : r < 50) :
    apply_min_refund r = 0 := by
  rw [apply_min_refund, if_pos ⟨h1, h2⟩]

/-- C5 counterexample: cancelling 10 hours before departure falls in the
4-12 hour tier (25%), so a completed payment of 1000 refunds 250, not the
500 the claim asserts. -/
theorem refund_ten_hours_cex :
    calculate_refund_amount 1000 10 0 = 250 ∧
    calculate_refund_amount 1000 10 0 ≠ 500 := by
  constructor <;>
    norm_num [calculate_refund_amount, refund_percentage, apply_min_refund, round2]

/-- C5 amended: the refund follows the tiered policy — at least 48 hours
before departure 90%, 24-48 hours 75%, 12-24 hours 50%, 4-12 hours 25%,
under 4 hours 0% — a positive refund below the flat minimum of 50 is
zeroed, and for a payment of 1000 cancellation 50 hours before departure
yields 900, 10 hours before yields 250, and 2 hours before yields 0. -/
theorem refund_tiered_policy (a d c : ℚ) :
    (100 ≤ a → 48 ≤ d - c → calculate_refund_amount a d c = round2 (a * (90/100))) ∧
    (100 ≤ a → 24 ≤ d - c → d - c < 48 →
      calculate_refund_amount a d c = round2 (a * (75/100))) ∧
    (100 ≤ a → 12 ≤ d - c → d - c < 24 →
      calculate_refund_amount a d c = round2 (a * (50/100))) ∧
    (200 ≤ a → 4 ≤ d - c → d - c < 12 →
      calculate_refund_amount a d c = round2 (a * (25/100))) ∧
    (0 < a → a < 200 → 4 ≤ d - c → d - c < 12 → calculate_refund_amount a d c = 0) ∧
    (d - c < 4 → calculate_refund_amount a d c = 0) ∧
    calculate_refund_amount 1000 50 0 = 900 ∧
    calculate_refund_amount 1000 10 0 = 250 ∧
    calculate_refund_amount 1000 2 0 = 0 := by
  refine ⟨?_, ?_, ?_, ?_, ?_, ?_, ?_, ?_, ?_⟩
  · intro ha h1
    rw [calculate_refund_amount, refund_percentage_ge48 _ h1,
      apply_min_refund_of_ge _ (by linarith)]
  · intro ha h1 h2
    rw [calculate_refund_amount, refund_percentage_24 _ h1 h2,
      apply_min_refund_of_ge _ (by linarith)]
  · intro ha h1 h2
    rw [calculate_refund_amount, refund_percentage_12 _ h1 h2,
      apply_min_refund_of_ge _ (by linarith)]
  · intro ha h1 h2
    rw [calculate_refund_amount, refund_percentage_4 _ h1 h2,
      apply_min_refund_of_ge _ (by linarith)]
  · intro ha1 ha2 h1 h2
    rw [calculate_refund_amount, refund_percentage_4 _ h1 h2,
      apply_min_refund_small _ (by linarith) (by linarith)]
    norm_num [round2]
  · intro h1
    rw [calculate_refund_amount, refund_percentage_lt4 _ h1]
    norm_num [apply_min_refund, round2]
  · norm_num [calculate_refund_amount, refund_percentage, apply_min_refund, round2]
  · norm_num [calculate_refund_amount, refund_percentage, apply_min_refund, round2]
  · norm_num [calculate_refund_amount, refund_percentage, apply_min_refund, round2]

/-- Witness for the C5 amended theorem: the 90% tier evaluated at a payment
of 1000 cancelled 50 hours before departure. -/
theorem refund_tiered_policy_witness :
    calculate_refund_amount 1000 50 0 = round2 (1000 * (90/100)) :=
  (refund_tiered_policy 1000 50 0).1 (by norm_num) (by norm_num)

/-- The `Booking.status.in_(["CONFIRMED", "COMPLETED"])` filter of
`_compute_user_total_bookings` (backend/routes/payment.py). -/
def countsForLoyalty : BookingStatus → Bool
  | .CONFIRMED => true
  | .COMPLETED => true
  | _ => false

/-- `_compute_user_total_bookings`: the number of the user's
CONFIRMED/COMPLETED bookings. -/
def user_total_bookings (bs : List Booking) (userId : Nat) : Nat :=
  (bs.filter (fun b => b.userId == userId && countsForLoyalty b.status)).length

/-- The dict returned by `_get_auto_discount`. -/
structure AutoDiscount where
  percent : ℚ
  code : Option String
  amount : ℚ
  bookings : Nat
  deriving DecidableEq, Repr

/-- `_get_auto_discount` (backend/routes/payment.py): 0 prior bookings →
5% FIRSTTIME5; else 40+ → 8% GOLD40; else 20+ → 5% SILVER20; else no
discount. -/
def get_auto_discount (bs : List Booking) (userId : Nat) (orderAmount : ℚ) : AutoDiscount :=
  let totalBookings := user_total_bookings bs userId
  let pc : ℚ × Option String :=
    if totalBookings = 0 then (5, some "FIRSTTIME5")
    else if 40 ≤ totalBookings then (8, some "GOLD40")
    else if 20 ≤ totalBookings then (5, some "SILVER20")
    else (0, none)
  { percent := pc.1, code := pc.2,
    amount := if 0 < pc.1 then round2 (orderAmount * pc.1 / 100) else 0,
    bookings := totalBookings }

/-- C6: the loyalty discount derived from the user's CONFIRMED/COMPLETED
booking count gives the 5% first-time discount at exactly 0, the Silver 5%
discount from 20 up to 39, and the Gold 8% discount (alone, never combined
with Silver) from 40 up; in particular 19 prior bookings earns nothing,
20 earns Silver, and 40 earns Gold 8% only. -/
theorem loyalty_tier_discount (bs : List Booking) (uid : Nat) (amt : ℚ) :
    (user_total_bookings bs uid = 0 →
      (get_auto_discount bs uid amt).percent = 5 ∧
      (get_auto_discount bs uid amt).code = some "FIRSTTIME5") ∧
    (20 ≤ user_total_bookings bs uid → user_total_bookings bs uid < 40 →
      (get_auto_discount bs uid amt).percent = 5 ∧
      (get_auto_discount bs uid amt).code = some "SILVER20") ∧
    (40 ≤ user_total_bookings bs uid →
      (get_auto_discount bs uid amt).percent = 8 ∧
      (get_auto_discount bs uid amt).code = some "GOLD40") ∧
    (user_total_bookings bs uid = 19 →
      (get_auto_discount bs uid amt).percent = 0 ∧
      (get_auto_discount bs uid amt).code = none) ∧
    (user_total_bookings bs uid = 20 →
      (get_auto_discount bs uid amt).percent = 5 ∧
      (get_auto_discount bs uid amt).code = some "SILVER20") ∧
    (user_total_bookings bs uid = 40 →
      (get_auto_discount bs uid amt).percent = 8 ∧
      (get_auto_discount bs uid amt).code = some "GOLD40") := by
  refine ⟨?_, ?_, ?_, ?_, ?_, ?_⟩ <;> intro h
  · simp [get_auto_discount, h]
  · intro h2
    have hne : user_total_bookings bs uid ≠ 0 := by omega
    have hlt : ¬ 40 ≤ user_total_bookings bs uid := by omega
    simp [get_auto_discount, hne, hlt, h]
  · have hne : user_total_bookings bs uid ≠ 0 := by omega
    simp [get_auto_discount, hne, h]
  · have hlt40 : ¬ 40 ≤ user_total_bookings bs uid := by omega
    have hlt20 : ¬ 20 ≤ user_total_bookings bs uid := by omega
    simp [get_auto_discount, h, hlt40, hlt20]
  · have hlt40 : ¬ 40 ≤ user_total_bookings bs uid := by omega
    simp [get_auto_discount, h, hlt40]
  · simp [get_auto_discount, h]

/-- A confirmed booking of user 7 used to exercise the loyalty tiers. -/
def c6Booking : Booking :=
  { id := 1, userId := 7, scheduleId := 1, seats := [1], seatClass := "ECONOMY",
    totalPrice := 500, status := .CONFIRMED, travelDate := 10, expiresAt := 0,
    cancelledAt := none, cancellationReason := none, pnr := some "TSY000001" }

/-- Witness for C6: a user with exactly 20 prior confirmed bookings gets the
Silver 5% discount. -/
theorem loyalty_tier_discount_witness :
    (get_auto_discount (List.replicate 20 c6Booking) 7 1000).percent = 5 ∧
    (get_auto_discount (List.replicate 20 c6Booking) 7 1000).code = some "SILVER20" :=
  (loyalty_tier_discount (List.replicate 20 c6Booking) 7 1000).2.2.2.2.1 (by decide)

/-- One iteration of the expiry sweep
(`BookingService.auto_cancel_expired_bookings`) on a single row: a CART or
PENDING booking whose `expires_at` has passed becomes EXPIRED with
`cancelled_at` and `cancellation_reason` stamped; every other row is left
untouched. -/
def sweep_booking (now : Nat) (b : Booking) : Booking :=
  if (b.status = .PENDING ∨ b.status = .CART) ∧ b.expiresAt < now then
    { b with status := .EXPIRED, cancelledAt := some now,
             cancellationReason := some "Auto-expired due to payment timeout" }
  else b

/-- `BookingService.auto_cancel_expired_bookings`: select the expired
CART/PENDING bookings, transition each to EXPIRED, and return how many rows
were transitioned. -/
def auto_cancel_expired_bookings (w : World) : World × Nat :=
  let expired := w.bookings.filter
    (fun b => decide ((b.status = .PENDING ∨ b.status = .CART) ∧ b.expiresAt < w.now))
  ({ w with bookings := w.bookings.map (sweep_booking w.now) }, expired.length)

theorem sweep_booking_twice (t t' : Nat) (b : Booking) :
    sweep_booking t' (sweep_booking t b) = sweep_booking t b ∨
      sweep_booking t b = b := by
  by_cases h : (b.status = BookingStatus.PENDING ∨ b.status = BookingStatus.CART) ∧
      b.expiresAt < t
  · left
    simp [sweep_booking, h]
  · right
    rw [sweep_booking, if_neg h]

/-- C8: the expiry sweep is idempotent — a second run transitions no row
and returns a count of 0, and on any single booking already transitioned by
a first sweep a later sweep (at any time) changes nothing, because the
status guard excludes non-CART/PENDING rows. -/
theorem expiry_sweep_idempotent :
    (∀ w : World,
      (auto_cancel_expired_bookings (auto_cancel_expired_bookings w).1).1 =
        (auto_cancel_expired_bookings w).1 ∧
      (auto_cancel_expired_bookings (auto_cancel_expired_bookings w).1).2 = 0) ∧
    (∀ (t t' : Nat) (b : Booking), sweep_booking t b ≠ b →
      sweep_booking t' (sweep_booking t b) = sweep_booking t b) := by
  constructor
  · intro w
    constructor
    · simp only [auto_cancel_expired_bookings, List.map_map]
      congr 1
      apply List.map_congr_left
      intro b _
      rcases sweep_booking_twice w.now w.now b with h | h
      · exact h
      · simp [Function.comp, h]
    · simp only [auto_cancel_expired_bookings, List.length_eq_zero,
        List.filter_eq_nil_iff]
      intro b hb
      rw [List.mem_map] at hb
      obtain ⟨b₀, _, hb₀⟩ := hb
      subst hb₀
      simp only [decide_eq_true_eq]
      intro hcon
      rw [sweep_booking] at hcon
      by_cases hg : (b₀.status = BookingStatus.PENDING ∨ b₀.status = BookingStatus.CART) ∧
          b₀.expiresAt < w.now
      · rw [if_pos hg] at hcon
        simp at hcon
      · rw [if_neg hg] at hcon
        exact hg hcon
  · intro t t' b hne
    rcases sweep_booking_twice t t' b with h | h
    · exact h
    · exact absurd h hne

/-- An expired CART booking used to witness the expiry-sweep theorem. -/
def c8Booking : Booking :=
  { c6Booking with id := 9, status := BookingStatus.CART, expiresAt := 50 }

/-- Witness for C8: a concrete expired CART booking is transitioned once and
a second sweep leaves it unchanged. -/
theorem expiry_sweep_idempotent_witness :
    sweep_booking 200 (sweep_booking 100 c8Booking) = sweep_booking 100 c8Booking :=
  expiry_sweep_idempotent.2 100 200 c8Booking (by decide)

/-- A passenger entry of the Pydantic `PassengerDetails` model
(backend/models/booking.py). -/
structure PassengerDetails where
  name : String
  age : Nat
  gender : String
  seatNumber : Nat
  deriving DecidableEq, Repr

/-- The field constraints of `PassengerDetails`: name 2..100 characters,
age 1..120, gender a literal, seat number at least 1. -/
def passenger_valid (p : PassengerDetails) : Bool :=
  decide (2 ≤ p.name.length) && decide (p.name.length ≤ 100) &&
  decide (1 ≤ p.age) && decide (p.age ≤ 120) &&
  (p.gender == "Male" || p.gender == "Female" || p.gender == "Other") &&
  decide (1 ≤ p.seatNumber)

/-- The Pydantic `BookingCreate` request model (backend/models/booking.py). -/
structure BookingCreate where
  scheduleId : Nat
  seats : List Nat
  seatClass : String
  passengerDetails : List PassengerDetails
  travelDate : Nat
  deriving DecidableEq, Repr

/-- The Pydantic validation of `BookingCreate`: `seats` carries
`min_items=1, max_items=6`, `passenger_details` likewise 1..6 and of equal
length as `seats`, seats deduplicated, and the travel date between today and
one year ahead (the year bound modelled as 365 days). -/
def booking_create_valid (today : Nat) (req : BookingCreate) : Bool :=
  decide (1 ≤ req.seats.length) && decide (req.seats.length ≤ 6) &&
  req.passengerDetails.all passenger_valid &&
  decide (1 ≤ req.passengerDetails.length) && decide (req.passengerDetails.length ≤ 6) &&
  (req.passengerDetails.length == req.seats.length) &&
  decide req.seats.Nodup &&
  decide (today ≤ req.travelDate) && decide (req.travelDate ≤ today + 365)

/-- Outcomes of booking creation: Pydantic rejection (HTTP 422 before any
handler runs), a service-level failure message, or success with the new
booking id, expiry time and price. -/
inductive CreateResult where
  | validationError
  | failure (msg : String)
  | ok (bookingId : Nat) (expiresAt : Nat) (totalPrice : ℚ)
  deriving DecidableEq, Repr

/-- `settings.BOOKING_EXPIRY_MINUTES` (backend/config.py). -/
def BOOKING_EXPIRY_MINUTES : Nat := 30000

/-- The CART booking row `BookingService.create_booking` inserts. -/
def mkCartBooking (w : World) (userId : Nat) (req : BookingCreate)
    (totalPrice : ℚ) : Booking :=
  { id := w.nextBookingId, userId := userId, scheduleId := req.scheduleId,
    seats := req.seats, seatClass := req.seatClass, totalPrice := totalPrice,
    status := .CART, travelDate := req.travelDate,
    expiresAt := w.now + BOOKING_EXPIRY_MINUTES,
    cancelledAt := none, cancellationReason := none, pnr := none }

/-- `BookingService.create_booking`: check availability first and on success
insert a CART booking (which does not block seats) priced by the
availability result, with `expires_at = now + BOOKING_EXPIRY_MINUTES`. -/
def create_booking (w : World) (userId : Nat) (req : BookingCreate) :
    World × CreateResult :=
  match check_availability w req.scheduleId req.seats req.seatClass
      (some req.travelDate) with
  | .ok _ totalPrice =>
    ({ w with bookings := w.bookings ++ [mkCartBooking w userId req totalPrice],
              nextBookingId := w.nextBookingId + 1 },
      .ok w.nextBookingId (w.now + BOOKING_EXPIRY_MINUTES) totalPrice)
  | r => (w, .failure r.message)

/-- The `POST /bookings` route: Pydantic validates the request body before
the handler (and hence any state change) runs; valid requests reach
`BookingService.create_booking`. -/
def create_booking_endpoint (w : World) (userId : Nat) (req : BookingCreate) :
    World × CreateResult :=
  if booking_create_valid w.today req = true then create_booking w userId req
  else (w, .validationError)

/-- C10: a booking request must carry between 1 and 6 seats and between 1
and 6 passenger entries; an empty or oversized seat list (or passenger
list) is rejected by input validation with no booking state created. -/
theorem seat_list_bounds (w : World) (uid : Nat) (req : BookingCreate) :
    (req.seats = [] →
      create_booking_endpoint w uid req = (w, CreateResult.validationError)) ∧
    (6 < req.seats.length →
      create_booking_endpoint w uid req = (w, CreateResult.validationError)) ∧
    (req.passengerDetails = [] →
      create_booking_endpoint w uid req = (w, CreateResult.validationError)) ∧
    (6 < req.passengerDetails.length →
      create_booking_endpoint w uid req = (w, CreateResult.validationError)) ∧
    (booking_create_valid w.today req = true →
      1 ≤ req.seats.length ∧ req.seats.length ≤ 6 ∧
      1 ≤ req.passengerDetails.length ∧ req.passengerDetails.length ≤ 6) := by
  refine ⟨?_, ?_, ?_, ?_, ?_⟩ <;> intro h
  · simp [create_booking_endpoint, booking_create_valid, h]
  · have : ¬ req.seats.length ≤ 6 := by omega
    simp [create_booking_endpoint, booking_create_valid, this]
  · simp [create_booking_endpoint, booking_create_valid, h]
  · have : ¬ req.passengerDetails.length ≤ 6 := by omega
    simp [create_booking_endpoint, booking_create_valid, this]
  · simp only [booking_create_valid, Bool.and_eq_true, decide_eq_true_eq] at h
    exact ⟨h.1.1.1.1.1.1.1.1, h.1.1.1.1.1.1.1.2, h.1.1.1.1.1.2, h.1.1.1.1.2⟩

/-- An empty world used by concrete witnesses. -/
def w0 : World :=
  { schedules := [], vehicles := [], bookings := [], payments := [], coupons := [],
    today := 100, now := 1000, nextBookingId := 1, nextPaymentId := 1 }

/-- A request with an empty seat list, for the C10 witness. -/
def c10Req : BookingCreate :=
  { scheduleId := 1, seats := [], seatClass := "ECONOMY",
    passengerDetails := [], travelDate := 100 }

/-- Witness for C10: the empty-seat-list request is rejected by validation
and creates nothing. -/
theorem seat_list_bounds_witness :
    create_booking_endpoint w0 1 c10Req = (w0, CreateResult.validationError) :=
  (seat_list_bounds w0 1 c10Req).1 rfl

/-- `Coupon.is_valid` (a property returning `(bool, reason)`): active flag,
validity window, and global usage limit. -/
def Coupon.is_valid (c : Coupon) (now : Nat) : Bool × String :=
  if c.isActive = false then (false, "Coupon is not active")
  else if (match c.validFrom with
      | some vf => decide (now < vf)
      | none => false) = true then (false, "Coupon is not yet valid")
  else if (match c.validUntil with
      | some vu => decide (vu < now)
      | none => false) = true then (false, "Coupon has expired")
  else if (match c.usageLimit with
      | some ul => decide (ul ≠ 0) && decide (ul ≤ c.usageCount)
      | none => false) = true then (false, "Coupon usage limit exceeded")
  else (true, "Valid")

/-- `Coupon.calculate_discount`: re-checks validity and the minimum order
value, computes a percentage or fixed discount (`None` numeric columns are
modelled as 0; Python would raise on them, which no seeded coupon does), and
caps it at `max_discount` when set. -/
def Coupon.calculate_discount (c : Coupon) (now : Nat) (orderAmount : ℚ) : ℚ × String :=
  if (c.is_valid now).1 = false then (0, (c.is_valid now).2)
  else if orderAmount < c.minOrderValue then
    (0, "Minimum order value of " ++ toString c.minOrderValue ++ " required")
  else
    let discount : ℚ :=
      match c.couponType with
      | .PERCENTAGE => orderAmount * c.discountPercent.getD 0 / 100
      | .FIXED_AMOUNT => c.discountAmount.getD 0
      | .FIRST_TIME => orderAmount * c.discountPercent.getD 0 / 100
      | .SEASONAL => orderAmount * c.discountPercent.getD 0 / 100
    let capped : ℚ :=
      match c.maxDiscount with
      | some m => if m ≠ 0 ∧ m < discount then m else discount
      | none => discount
    (capped, "Discount applied successfully")

/-- `select(Coupon).where(Coupon.code == code)` — lookup by primary key. -/
def findCoupon : List Coupon → String → Option Coupon
  | [], _ => none
  | c :: rest, code => if c.code = code then some c else findCoupon rest code

/-- The per-user usage query of `apply_coupon`: completed payments of the
user referencing the coupon code. -/
def userCouponUsage (payments : List Payment) (userId : Nat) (code : String) : Nat :=
  (payments.filter (fun p => p.userId == userId && p.couponCode == some code &&
    p.status == PaymentStatus.COMPLETED)).length

/-- The WELCOME10 coupon `_seed_default_coupon_if_known` inserts (column
defaults `usage_count = 0`, `is_active = True`, `valid_from = now` applied
at insert; 365 days = 525600 minutes). -/
def welcomeCoupon (now : Nat) : Coupon :=
  { code := "WELCOME10", couponType := .FIRST_TIME,
    discountPercent := some 10, discountAmount := none,
    minOrderValue := 500, maxDiscount := some 200,
    usageLimit := some 1000, usageCount := 0, userUsageLimit := some 1,
    isActive := true, validFrom := some now, validUntil := some (now + 525600) }

/-- The SUMMER25 coupon of `_seed_default_coupon_if_known`
(90 days = 129600 minutes; `user_usage_limit` defaults to 1). -/
def summerCoupon (now : Nat) : Coupon :=
  { code := "SUMMER25", couponType := .SEASONAL,
    discountPercent := some 25, discountAmount := none,
    minOrderValue := 1000, maxDiscount := some 500,
    usageLimit := some 500, usageCount := 0, userUsageLimit := some 1,
    isActive := true, validFrom := some now, validUntil := some (now + 129600) }

/-- The FIXED100 coupon of `_seed_default_coupon_if_known`
(30 days = 43200 minutes). -/
def fixedCoupon (now : Nat) : Coupon :=
  { code := "FIXED100", couponType := .FIXED_AMOUNT,
    discountPercent := none, discountAmount := some 100,
    minOrderValue := 1000, maxDiscount := none,
    usageLimit := some 200, usageCount := 0, userUsageLimit := some 1,
    isActive := true, validFrom := some now, validUntil := some (now + 43200) }

/-- `_seed_default_coupon_if_known` (backend/routes/payment.py): when the
code is one of the three known defaults, create its coupon row (inputs are
modelled unpadded, so `strip()` is the identity). -/
def seed_default_coupon (now : Nat) (code : String) : Option Coupon :=
  let key := upperString code
  if key = "WELCOME10" then some (welcomeCoupon now)
  else if key = "SUMMER25" then some (summerCoupon now)
  else if key = "FIXED100" then some (fixedCoupon now)
  else none

/-- Validation results of `apply_coupon`. -/
inductive CouponResult where
  | valid (discountAmount : ℚ) (couponType : CouponType)
  | invalid (errorMsg : String)
  deriving DecidableEq, Repr

/-- The minimum-order rejection message of `apply_coupon`. -/
def minOrderMessage (v : ℚ) : String :=
  "Minimum booking amount of " ++ toString v ++ " required"

/-- `apply_coupon` (backend/routes/payment.py): fetch the coupon by
uppercased code (seeding a known default when missing), check
`is_valid`, the minimum order value, and the per-user usage limit, then
compute the discount via `Coupon.calculate_discount`; usage counts are
deliberately not incremented here. -/
def apply_coupon (coupons : List Coupon) (payments : List Payment) (now : Nat)
    (couponCode : String) (bookingAmount : ℚ) (userId : Nat) : CouponResult :=
  let couponOpt :=
    match findCoupon coupons (upperString couponCode) with
    | some c => some c
    | none => seed_default_coupon now couponCode
  match couponOpt with
  | none => .invalid "Invalid coupon code"
  | some coupon =>
    if (coupon.is_valid now).1 = false then .invalid (coupon.is_valid now).2
    else if coupon.minOrderValue ≠ 0 ∧ bookingAmount < coupon.minOrderValue then
      .invalid (minOrderMessage coupon.minOrderValue)
    else if (match coupon.userUsageLimit with
        | some ul => decide (ul ≠ 0) &&
            decide (ul ≤ userCouponUsage payments userId coupon.code)
        | none => false) = true then
      .invalid "You have already used this coupon"
    else
      let d := coupon.calculate_discount now bookingAmount
      if d.1 ≤ 0 then .invalid d.2
      else .valid d.1 coupon.couponType

theorem welcome_is_valid (now : Nat) :
    (welcomeCoupon now).is_valid now = (true, "Valid") := by
  have h1 : ¬ (now < now) := by omega
  have h2 : ¬ (now + 525600 < now) := by omega
  simp [Coupon.is_valid, welcomeCoupon, h1, h2]

theorem userCouponUsage_zero (payments : List Payment) (uid : Nat)
    (hnp : ∀ p ∈ payments, ¬(p.couponCode = some "WELCOME10" ∧
      p.status = PaymentStatus.COMPLETED)) :
    userCouponUsage payments uid "WELCOME10" = 0 := by
  rw [userCouponUsage, List.length_eq_zero, List.filter_eq_nil_iff]
  intro p hp
  have := hnp p hp
  simp only [Bool.and_eq_true, beq_iff_eq, decide_eq_true_eq]
  rintro ⟨⟨-, hcode⟩, hst⟩
  exact this ⟨hcode, hst⟩

/-- C7: for any user who has not already consumed WELCOME10 (in particular
any user, when the coupon is being seeded fresh), applying WELCOME10 (10%,
minimum order 500, cap 200) to an order of 1000 yields a discount of exactly
100, and applying it to an order of 400 is rejected with the minimum-order
error and yields no discount. -/
theorem welcome10_discounts (coupons : List Coupon) (payments : List Payment)
    (now uid : Nat)
    (hnc : findCoupon coupons "WELCOME10" = none)
    (hnp : ∀ p ∈ payments, ¬(p.couponCode = some "WELCOME10" ∧
      p.status = PaymentStatus.COMPLETED)) :
    apply_coupon coupons payments now "WELCOME10" 1000 uid =
      CouponResult.valid 100 CouponType.FIRST_TIME ∧
    apply_coupon coupons payments now "WELCOME10" 400 uid =
      CouponResult.invalid (minOrderMessage 500) := by
  have hupper : upperString "WELCOME10" = "WELCOME10" := by decide
  have hseed : seed_default_coupon now "WELCOME10" = some (welcomeCoupon now) := by
    rw [seed_default_coupon, hupper]
    simp
  have husage := userCouponUsage_zero payments uid hnp
  have hvalid := welcome_is_valid now
  constructor
  · rw [apply_coupon, hupper, hnc, hseed]
    simp only [Coupon.calculate_discount, hvalid]
    simp only [welcomeCoupon, husage]
    norm_num
  · rw [apply_coupon, hupper, hnc, hseed]
    simp only [Coupon.calculate_discount, hvalid]
    simp only [welcomeCoupon, husage]
    norm_num [minOrderMessage]

/-- Witness for C7: WELCOME10 against an empty coupon and payment table. -/
theorem welcome10_discounts_witness :
    apply_coupon [] [] 5000 "WELCOME10" 1000 3 =
      CouponResult.valid 100 CouponType.FIRST_TIME ∧
    apply_coupon [] [] 5000 "WELCOME10" 400 3 =
      CouponResult.invalid (minOrderMessage 500) :=
  welcome10_discounts [] [] 5000 3 rfl (by simp)

/-- An ORM row update followed by commit: replace the row with the matching
primary key. -/
def updateBookingList (bs : List Booking) (b : Booking) : List Booking :=
  bs.map (fun x => if x.id = b.id then b else x)

/-- The result of the opaque payment-gateway collaborator
(`process_payment` in backend/services/payment_service.py): success flag,
transaction id and gateway response on success, error message on failure. -/
structure GatewayResult where
  success : Bool
  transactionId : String
  response : String
  errorMsg : String
  deriving DecidableEq, Repr

/-- Outcomes of `process_booking_payment`; each constructor corresponds to
one of the route's HTTP responses. -/
inductive PayResult where
  | notFound
  | forbidden
  | wrongState (st : BookingStatus)
  | seatsUnavailable (msg : String)
  | alreadyCompleted
  | alreadyProcessing
  | bookingExpired
  | couponRejected (msg : String)
  | gatewayFailed (msg : String)
  | paid (paymentId : Nat) (transactionId : String)
  deriving DecidableEq, Repr

/-- Steps 6-8 of `process_booking_payment`: create the Payment row
(original/discount/final amounts, status PENDING) and invoke the gateway.
On success the payment becomes COMPLETED with the transaction id and the
booking CONFIRMED with a PNR assigned.  On failure the payment is marked
FAILED; the raised seat-of-`HTTPException` is then caught by the route's
handler, which rewrites the stored `gateway_response` to
`"Payment failed: " ++ error` — the booking row is not touched.  The model
appends the payment row in its final state. -/
def payment_gateway_step (w : World) (booking : Booking) (userId : Nat)
    (discountAmount : ℚ) (couponApplied : Option String) (gw : GatewayResult)
    (pnr : String) : World × PayResult :=
  let originalAmount := booking.totalPrice
  let finalAmount := max 0 (originalAmount - discountAmount)
  let payment : Payment :=
    { id := w.nextPaymentId, bookingId := booking.id, userId := userId,
      amount := originalAmount, discountAmount := discountAmount,
      finalAmount := finalAmount, status := .PENDING,
      gatewayResponse := none, transactionId := none, couponCode := couponApplied }
  if gw.success = true then
    let donePayment : Payment :=
      { payment with
          status := PaymentStatus.COMPLETED,
          transactionId := some gw.transactionId,
          gatewayResponse := some gw.response }
    let confirmedBooking : Booking :=
      { booking with status := BookingStatus.CONFIRMED, pnr := some pnr }
    let w' : World :=
      { w with
          payments := w.payments ++ [donePayment],
          nextPaymentId := w.nextPaymentId + 1,
          bookings := updateBookingList w.bookings confirmedBooking }
    (w', .paid payment.id gw.transactionId)
  else
    let failMsg := "Payment failed: " ++ gw.errorMsg
    let failedPayment : Payment :=
      { payment with status := PaymentStatus.FAILED, gatewayResponse := some failMsg }
    let w' : World :=
      { w with
          payments := w.payments ++ [failedPayment],
          nextPaymentId := w.nextPaymentId + 1 }
    (w', .gatewayFailed failMsg)

/-- Step 5 of `process_booking_payment`: resolve the discount.  No coupon
code means no discount; SILVER20/SILVERPASS and GOLD40/GOLDPASS are checked
against the user's CONFIRMED/COMPLETED booking count (5% and 8%) and
rejected when the count is insufficient; any other code goes through
`apply_coupon`. -/
def payment_coupon_step (w : World) (booking : Booking) (userId : Nat)
    (couponCode : Option String) (gw : GatewayResult) (pnr : String) :
    World × PayResult :=
  match couponCode with
  | none => payment_gateway_step w booking userId 0 none gw pnr
  | some cc =>
    let couponUpper := upperString cc
    let totalBookings := user_total_bookings w.bookings userId
    if (couponUpper = "SILVER20" ∨ couponUpper = "SILVERPASS") ∧ 20 ≤ totalBookings then
      payment_gateway_step w booking userId
        (round2 (booking.totalPrice * 5 / 100)) (some cc) gw pnr
    else if (couponUpper = "GOLD40" ∨ couponUpper = "GOLDPASS") ∧ 40 ≤ totalBookings then
      payment_gateway_step w booking userId
        (round2 (booking.totalPrice * 8 / 100)) (some cc) gw pnr
    else if couponUpper = "SILVER20" ∨ couponUpper = "SILVERPASS" ∨
        couponUpper = "GOLD40" ∨ couponUpper = "GOLDPASS" then
      (w, .couponRejected "Pass requires more bookings")
    else
      match apply_coupon w.coupons w.payments w.now cc booking.totalPrice userId with
      | .valid discountAmount _ =>
        payment_gateway_step w booking userId discountAmount (some cc) gw pnr
      | .invalid msg => (w, .couponRejected msg)

/-- Step 4 of `process_booking_payment`: a booking whose `expires_at` has
passed is auto-expired and the payment rejected. -/
def payment_expiry_step (w : World) (booking : Booking) (userId : Nat)
    (couponCode : Option String) (gw : GatewayResult) (pnr : String) :
    World × PayResult :=
  if booking.expiresAt < w.now then
    let expired : Booking :=
      { booking with status := BookingStatus.EXPIRED, cancelledAt := some w.now }
    ({ w with bookings := updateBookingList w.bookings expired }, .bookingExpired)
  else payment_coupon_step w booking userId couponCode gw pnr

/-- Step 3 of `process_booking_payment`: an existing COMPLETED or PENDING
payment blocks a second payment; a stale FAILED payment row is deleted to
allow the retry; other states fall through. -/
def payment_existing_step (w : World) (booking : Booking) (userId : Nat)
    (couponCode : Option String) (gw : GatewayResult) (pnr : String) :
    World × PayResult :=
  match findPaymentByBooking w.payments booking.id with
  | none => payment_expiry_step w booking userId couponCode gw pnr
  | some existing =>
    if existing.status = .COMPLETED then (w, .alreadyCompleted)
    else if existing.status = .PENDING then (w, .alreadyProcessing)
    else if existing.status = .FAILED then
      payment_expiry_step
        { w with payments := w.payments.filter (fun p => p.id ≠ existing.id) }
        booking userId couponCode gw pnr
    else payment_expiry_step w booking userId couponCode gw pnr

/-- `process_booking_payment` (backend/routes/payment.py): load the booking,
verify ownership, require status CART or PENDING, and for a CART booking
re-run the availability check — on conflict the booking stays in CART and
the caller is told to re-select seats; otherwise it moves to PENDING with
its price refreshed — then run the payment steps (existing payment, expiry,
discount, gateway).  The gateway outcome and the generated PNR are
parameters of the model. -/
def process_booking_payment (w : World) (userId : Nat) (bookingId : Nat)
    (couponCode : Option String) (gw : GatewayResult) (pnr : String) :
    World × PayResult :=
  match findBooking w.bookings bookingId with
  | none => (w, .notFound)
  | some booking =>
    if booking.userId ≠ userId then (w, .forbidden)
    else if ¬(booking.status = .CART ∨ booking.status = .PENDING) then
      (w, .wrongState booking.status)
    else if booking.status = .CART then
      match check_availability w booking.scheduleId booking.seats
          booking.seatClass (some booking.travelDate) with
      | .ok _ totalPrice =>
        let pending : Booking :=
          { booking with status := BookingStatus.PENDING, totalPrice := totalPrice }
        payment_existing_step
          { w with bookings := updateBookingList w.bookings pending }
          pending userId couponCode gw pnr
      | r =>
        (w, .seatsUnavailable ("Seats are no longer available: " ++ r.message ++
          ". Please select different seats."))
    else payment_existing_step w booking userId couponCode gw pnr

theorem findBooking_some_id (bs : List Booking) (bid : Nat) (b : Booking)
    (h : findBooking bs bid = some b) : b.id = bid := by
  induction bs with
  | nil => simp [findBooking] at h
  | cons x rest ih =>
    rw [findBooking] at h
    by_cases hx : x.id = bid
    · rw [if_pos hx] at h
      obtain rfl : x = b := Option.some.inj h
      exact hx
    · rw [if_neg hx] at h
      exact ih h

theorem findPaymentByBooking_append (ps qs : List Payment) (bid : Nat)
    (h : findPaymentByBooking ps bid = none) :
    findPaymentByBooking (ps ++ qs) bid = findPaymentByBooking qs bid := by
  induction ps with
  | nil => simp
  | cons p rest ih =>
    rw [findPaymentByBooking] at h
    by_cases hp : p.bookingId = bid
    · rw [if_pos hp] at h
      exact absurd h (by simp)
    · rw [if_neg hp] at h
      rw [List.cons_append, findPaymentByBooking, if_neg hp]
      exact ih h

theorem payment_gateway_step_failure (w : World) (b : Booking) (uid : Nat)
    (da : ℚ) (cc : Option String) (gw : GatewayResult) (pnr : String)
    (hgw : gw.success = false) :
    payment_gateway_step w b uid da cc gw pnr =
      ({ w with
          payments := w.payments ++
            [{ id := w.nextPaymentId, bookingId := b.id, userId := uid,
               amount := b.totalPrice, discountAmount := da,
               finalAmount := max 0 (b.totalPrice - da),
               status := PaymentStatus.FAILED,
               gatewayResponse := some ("Payment failed: " ++ gw.errorMsg),
               transactionId := none, couponCode := cc }],
          nextPaymentId := w.nextPaymentId + 1 },
        PayResult.gatewayFailed ("Payment failed: " ++ gw.errorMsg)) := by
  simp [payment_gateway_step, hgw]

/-- C9: when the gateway reports failure for a payment attempt on a PENDING
booking, the Payment row ends FAILED with the gateway's error message
recorded in its gateway response, and the booking is found unchanged — it
remains PENDING. -/
theorem payment_failure_keeps_pending (w : World) (uid bid : Nat) (b : Booking)
    (gw : GatewayResult) (pnr : String)
    (hfind : findBooking w.bookings bid = some b)
    (hown : b.userId = uid)
    (hstat : b.status = BookingStatus.PENDING)
    (hnopay : findPaymentByBooking w.payments bid = none)
    (hexp : ¬ b.expiresAt < w.now)
    (hgw : gw.success = false) :
    (process_booking_payment w uid bid none gw pnr).2 =
      PayResult.gatewayFailed ("Payment failed: " ++ gw.errorMsg) ∧
    (∃ p, findPaymentByBooking
        (process_booking_payment w uid bid none gw pnr).1.payments bid = some p ∧
      p.status = PaymentStatus.FAILED ∧
      p.gatewayResponse = some ("Payment failed: " ++ gw.errorMsg)) ∧
    findBooking (process_booking_payment w uid bid none gw pnr).1.bookings bid =
      some b ∧
    b.status = BookingStatus.PENDING := by
  have hid : b.id = bid := findBooking_some_id w.bookings bid b hfind
  have hroute : process_booking_payment w uid bid none gw pnr =
      payment_gateway_step w b uid 0 none gw pnr := by
    rw [process_booking_payment, hfind]
    simp [hown, hstat, payment_existing_step, hid, hnopay, payment_expiry_step,
      hexp, payment_coupon_step]
  rw [hroute, payment_gateway_step_failure w b uid 0 none gw pnr hgw]
  have hfindp : findPaymentByBooking
      (w.payments ++
        [{ id := w.nextPaymentId, bookingId := b.id, userId := uid,
           amount := b.totalPrice, discountAmount := 0,
           finalAmount := max 0 (b.totalPrice - 0),
           status := PaymentStatus.FAILED,
           gatewayResponse := some ("Payment failed: " ++ gw.errorMsg),
           transactionId := none, couponCode := none }]) bid =
      some { id := w.nextPaymentId, bookingId := b.id, userId := uid,
             amount := b.totalPrice, discountAmount := 0,
             finalAmount := max 0 (b.totalPrice - 0),
             status := PaymentStatus.FAILED,
             gatewayResponse := some ("Payment failed: " ++ gw.errorMsg),
             transactionId := none, couponCode := none } := by
    rw [findPaymentByBooking_append w.payments _ bid hnopay,
      findPaymentByBooking, if_pos hid]
  exact ⟨rfl, ⟨_, hfindp, rfl, rfl⟩, hfind, hstat⟩

/-- A PENDING booking awaiting payment, for the C9 witness. -/
def c9Booking : Booking :=
  { id := 1, userId := 3, scheduleId := 1, seats := [1], seatClass := "ECONOMY",
    totalPrice := 500, status := .PENDING, travelDate := 100, expiresAt := 5000,
    cancelledAt := none, cancellationReason := none, pnr := none }

/-- World holding only the C9 booking. -/
def c9World : World := { w0 with bookings := [c9Booking] }

/-- A failing gateway result for the C9 witness. -/
def c9Gateway : GatewayResult :=
  { success := false, transactionId := "", response := "",
    errorMsg := "Insufficient funds" }

/-- Witness for C9: a concrete failed gateway call leaves the booking
PENDING and the payment FAILED. -/
theorem payment_failure_keeps_pending_witness :
    (process_booking_payment c9World 3 1 none c9Gateway "TK123456").2 =
      PayResult.gatewayFailed ("Payment failed: " ++ c9Gateway.errorMsg) :=
  (payment_failure_keeps_pending c9World 3 1 c9Booking c9Gateway "TK123456"
    (by decide) rfl rfl rfl (by decide) rfl).1

theorem bookedSeats_append (l1 l2 : List Booking) (sid : Nat) (d : Option Nat) :
    bookedSeats (l1 ++ l2) sid d = bookedSeats l1 sid d ++ bookedSeats l2 sid d := by
  induction l1 with
  | nil => simp [bookedSeats]
  | cons b rest ih => simp [bookedSeats, ih]

theorem bookedSeats_single_inactive (b : Booking) (sid : Nat) (d : Option Nat)
    (h : occupiesSeat b.status = false) : bookedSeats [b] sid d = [] := by
  simp [bookedSeats, h]

theorem bookedSeats_single_active (b : Booking) (sid d : Nat)
    (h1 : b.scheduleId = sid) (h2 : occupiesSeat b.status = true)
    (h3 : b.travelDate = d) : bookedSeats [b] sid (some d) = b.seats := by
  simp [bookedSeats, h1, h2, matchesTravelDate, h3]

theorem updateBookingList_append (l1 l2 : List Booking) (b : Booking) :
    updateBookingList (l1 ++ l2) b =
      updateBookingList l1 b ++ updateBookingList l2 b := by
  simp [updateBookingList]

theorem updateBookingList_of_ne (bs : List Booking) (b : Booking)
    (h : ∀ x ∈ bs, x.id ≠ b.id) : updateBookingList bs b = bs := by
  induction bs with
  | nil => rfl
  | cons x rest ih =>
    rw [updateBookingList, List.map_cons, if_neg (h x (by simp))]
    have := ih (fun y hy => h y (by simp [hy]))
    rw [updateBookingList] at this
    rw [this]

theorem findBooking_none (bs : List Booking) (bid : Nat)
    (h : ∀ x ∈ bs, x.id ≠ bid) : findBooking bs bid = none := by
  induction bs with
  | nil => rfl
  | cons x rest ih =>
    rw [findBooking, if_neg (h x (by simp))]
    exact ih (fun y hy => h y (by simp [hy]))

theorem findBooking_append (l1 l2 : List Booking) (bid : Nat)
    (h : findBooking l1 bid = none) :
    findBooking (l1 ++ l2) bid = findBooking l2 bid := by
  induction l1 with
  | nil => simp
  | cons b rest ih =>
    rw [findBooking] at h
    by_cases hb : b.id = bid
    · rw [if_pos hb] at h
      exact absurd h (by simp)
    · rw [if_neg hb] at h
      rw [List.cons_append, findBooking, if_neg hb]
      exact ih h

theorem findPaymentByBooking_none (ps : List Payment) (bid : Nat)
    (h : ∀ q ∈ ps, q.bookingId ≠ bid) : findPaymentByBooking ps bid = none := by
  induction ps with
  | nil => rfl
  | cons q rest ih =>
    rw [findPaymentByBooking, if_neg (h q (by simp))]
    exact ih (fun y hy => h y (by simp [hy]))

theorem check_availability_ok (w : World) (sid : Nat) (seats : List Nat)
    (seatClass : String) (date : Nat) (sch : Schedule) (veh : Vehicle) (p : ℚ)
    (hsv : findScheduleVehicle w.schedules w.vehicles sid = some (sch, veh))
    (hact : sch.isActive = true)
    (hdate : ¬ date < w.today)
    (hocc : ∀ s ∈ seats, s ∉ bookedSeats w.bookings sid (some date))
    (hrange : ∀ s ∈ seats, 1 ≤ s ∧ s ≤ veh.totalSeats)
    (hprice : get_price_for_class veh seatClass (some sch) = some p) :
    check_availability w sid seats seatClass (some date) =
      AvailResult.ok p (p * (seats.length : ℚ)) := by
  have hconf : ¬ ∃ x, x ∈ seats ∧ x ∈ bookedSeats w.bookings sid (some date) := by
    rintro ⟨x, hx, hmem⟩
    exact hocc x hx hmem
  have hinv : ¬ ∃ x, x ∈ seats ∧ (¬x = 0 → veh.totalSeats < x) := by
    rintro ⟨x, hx, himp⟩
    have hr := hrange x hx
    have := himp (by omega)
    omega
  rw [check_availability, hsv]
  simp [hact, hdate, hconf, hinv, hprice]

theorem check_availability_conflict (w : World) (sid : Nat) (seats : List Nat)
    (seatClass : String) (date : Nat) (sch : Schedule) (veh : Vehicle)
    (hsv : findScheduleVehicle w.schedules w.vehicles sid = some (sch, veh))
    (hact : sch.isActive = true)
    (hdate : ¬ date < w.today)
    (hconf : seats.filter
      (fun s => (bookedSeats w.bookings sid (some date)).contains s) ≠ []) :
    check_availability w sid seats seatClass (some date) =
      AvailResult.seatsTaken (seats.filter
        (fun s => (bookedSeats w.bookings sid (some date)).contains s)) := by
  obtain ⟨x, hx⟩ := List.exists_mem_of_ne_nil _ hconf
  rw [List.mem_filter] at hx
  have hex : ∃ x, x ∈ seats ∧ x ∈ bookedSeats w.bookings sid (some date) :=
    ⟨x, hx.1, by simpa using hx.2⟩
  rw [check_availability, hsv]
  simp [hact, hdate, hex]

theorem create_booking_ok (w : World) (uid : Nat) (req : BookingCreate) (pp tp : ℚ)
    (h : check_availability w req.scheduleId req.seats req.seatClass
      (some req.travelDate) = AvailResult.ok pp tp) :
    create_booking w uid req =
      ({ w with bookings := w.bookings ++ [mkCartBooking w uid req tp],
                nextBookingId := w.nextBookingId + 1 },
        CreateResult.ok w.nextBookingId (w.now + BOOKING_EXPIRY_MINUTES) tp) := by
  rw [create_booking, h]

/-- The CART→PENDING transition written by step 2 of
`process_booking_payment` (price refreshed from current availability). -/
def pendingOf (b : Booking) (tp : ℚ) : Booking :=
  { b with status := BookingStatus.PENDING, totalPrice := tp }

theorem process_payment_cart_ok (w : World) (uid bid : Nat) (b : Booking)
    (pp tp : ℚ) (gw : GatewayResult) (pnr : String)
    (hfind : findBooking w.bookings bid = some b)
    (hown : b.userId = uid)
    (hstat : b.status = BookingStatus.CART)
    (hav : check_availability w b.scheduleId b.seats b.seatClass
      (some b.travelDate) = AvailResult.ok pp tp) :
    process_booking_payment w uid bid none gw pnr =
      payment_existing_step
        { w with bookings := updateBookingList w.bookings (pendingOf b tp) }
        (pendingOf b tp) uid none gw pnr := by
  rw [process_booking_payment, hfind]
  simp [hown, hstat, hav, pendingOf]

theorem process_payment_cart_conflict (w : World) (uid bid : Nat) (b : Booking)
    (cs : List Nat) (gw : GatewayResult) (pnr : String)
    (hfind : findBooking w.bookings bid = some b)
    (hown : b.userId = uid)
    (hstat : b.status = BookingStatus.CART)
    (hav : check_availability w b.scheduleId b.seats b.seatClass
      (some b.travelDate) = AvailResult.seatsTaken cs) :
    process_booking_payment w uid bid none gw pnr =
      (w, PayResult.seatsUnavailable ("Seats are no longer available: " ++
        (AvailResult.seatsTaken cs).message ++ ". Please select different seats.")) := by
  rw [process_booking_payment, hfind]
  simp [hown, hstat, hav]

theorem payment_steps_no_existing (w : World) (b : Booking) (uid : Nat)
    (gw : GatewayResult) (pnr : String)
    (hnopay : findPaymentByBooking w.payments b.id = none)
    (hexp : ¬ b.expiresAt < w.now) :
    payment_existing_step w b uid none gw pnr =
      payment_gateway_step w b uid 0 none gw pnr := by
  rw [payment_existing_step, hnopay, payment_expiry_step, if_neg hexp,
    payment_coupon_step]

theorem payment_gateway_step_success (w : World) (b : Booking) (uid : Nat)
    (da : ℚ) (cc : Option String) (gw : GatewayResult) (pnr : String)
    (hgw : gw.success = true) :
    payment_gateway_step w b uid da cc gw pnr =
      ({ w with
          payments := w.payments ++
            [{ id := w.nextPaymentId, bookingId := b.id, userId := uid,
               amount := b.totalPrice, discountAmount := da,
               finalAmount := max 0 (b.totalPrice - da),
               status := PaymentStatus.COMPLETED,
               gatewayResponse := some gw.response,
               transactionId := some gw.transactionId, couponCode := cc }],
          nextPaymentId := w.nextPaymentId + 1,
          bookings := updateBookingList w.bookings
            { b with status := BookingStatus.CONFIRMED, pnr := some pnr } },
        PayResult.paid w.nextPaymentId gw.transactionId) := by
  simp [payment_gateway_step, hgw]

/-- An ECONOMY booking request for the C1 scenario. -/
def c1Req (sid date : Nat) (seats : List Nat) (pd : List PassengerDetails) :
    BookingCreate :=
  { scheduleId := sid, seats := seats, seatClass := "ECONOMY",
    passengerDetails := pd, travelDate := date }

/-- C1 scenario, step 1: user 1 puts seats [1, 2] in the cart. -/
def c1Stage1 (w : World) (u1 sid date : Nat) (pd1 : List PassengerDetails) :
    World × CreateResult :=
  create_booking w u1 (c1Req sid date [1, 2] pd1)

/-- C1 scenario, step 2: user 2 puts seats [2, 3] in the cart on the same
schedule and date, while the first booking is still unpaid. -/
def c1Stage2 (w : World) (u1 u2 sid date : Nat)
    (pd1 pd2 : List PassengerDetails) : World × CreateResult :=
  create_booking (c1Stage1 w u1 sid date pd1).1 u2 (c1Req sid date [2, 3] pd2)

/-- C1 scenario, step 3: user 1 pays for the first booking. -/
def c1Stage3 (w : World) (u1 u2 sid date : Nat)
    (pd1 pd2 : List PassengerDetails) (gw1 : GatewayResult) (pnr1 : String) :
    World × PayResult :=
  process_booking_payment (c1Stage2 w u1 u2 sid date pd1 pd2).1 u1
    w.nextBookingId none gw1 pnr1

/-- C1 scenario, step 4: user 2 then attempts to pay for the second
booking. -/
def c1Stage4 (w : World) (u1 u2 sid date : Nat)
    (pd1 pd2 : List PassengerDetails) (gw1 gw2 : GatewayResult)
    (pnr1 pnr2 : String) : World × PayResult :=
  process_booking_payment (c1Stage3 w u1 u2 sid date pd1 pd2 gw1 pnr1).1 u2
    (w.nextBookingId + 1) none gw2 pnr2

theorem mkCartBooking_id (w : World) (uid : Nat) (req : BookingCreate) (tp : ℚ) :
    (mkCartBooking w uid req tp).id = w.nextBookingId := rfl

theorem mkCartBooking_status (w : World) (uid : Nat) (req : BookingCreate) (tp : ℚ) :
    (mkCartBooking w uid req tp).status = BookingStatus.CART := rfl

theorem pendingOf_id (b : Booking) (tp : ℚ) : (pendingOf b tp).id = b.id := rfl

theorem pendingOf_status (b : Booking) (tp : ℚ) :
    (pendingOf b tp).status = BookingStatus.PENDING := rfl

/-- C1: on any schedule and travel date that is active, not past, priced for
ECONOMY, with seats 1-3 unoccupied and within capacity, a [1,2] cart booking
and a [2,3] cart booking both succeed with status CART; paying the first
completes and confirms it, and the second booking's subsequent payment
attempt fails with a seat-conflict message naming seat 2 while the second
booking stays in CART — it is never moved to PENDING or CONFIRMED. -/
theorem cart_overlap_payment_conflict
    (w : World) (sid date u1 u2 : Nat) (pd1 pd2 : List PassengerDetails)
    (sch : Schedule) (veh : Vehicle) (p : ℚ)
    (gw1 gw2 : GatewayResult) (pnr1 pnr2 : String)
    (hsv : findScheduleVehicle w.schedules w.vehicles sid = some (sch, veh))
    (hact : sch.isActive = true)
    (hdate : ¬ date < w.today)
    (hocc : ∀ s ∈ ([1, 2, 3] : List Nat), s ∉ bookedSeats w.bookings sid (some date))
    (hcap : 3 ≤ veh.totalSeats)
    (hprice : get_price_for_class veh "ECONOMY" (some sch) = some p)
    (hbid : ∀ b ∈ w.bookings, b.id < w.nextBookingId)
    (hpid : ∀ q ∈ w.payments, q.bookingId < w.nextBookingId)
    (hgw : gw1.success = true) :
    (c1Stage1 w u1 sid date pd1).2 =
      CreateResult.ok w.nextBookingId (w.now + BOOKING_EXPIRY_MINUTES) (p * 2) ∧
    (c1Stage2 w u1 u2 sid date pd1 pd2).2 =
      CreateResult.ok (w.nextBookingId + 1) (w.now + BOOKING_EXPIRY_MINUTES) (p * 2) ∧
    (findBooking (c1Stage2 w u1 u2 sid date pd1 pd2).1.bookings
      w.nextBookingId).map Booking.status = some BookingStatus.CART ∧
    (findBooking (c1Stage2 w u1 u2 sid date pd1 pd2).1.bookings
      (w.nextBookingId + 1)).map Booking.status = some BookingStatus.CART ∧
    (c1Stage3 w u1 u2 sid date pd1 pd2 gw1 pnr1).2 =
      PayResult.paid w.nextPaymentId gw1.transactionId ∧
    (findBooking (c1Stage3 w u1 u2 sid date pd1 pd2 gw1 pnr1).1.bookings
      w.nextBookingId).map Booking.status = some BookingStatus.CONFIRMED ∧
    (c1Stage4 w u1 u2 sid date pd1 pd2 gw1 gw2 pnr1 pnr2).2 =
      PayResult.seatsUnavailable ("Seats are no longer available: " ++
        (AvailResult.seatsTaken [2]).message ++ ". Please select different seats.") ∧
    (findBooking (c1Stage4 w u1 u2 sid date pd1 pd2 gw1 gw2 pnr1 pnr2).1.bookings
      (w.nextBookingId + 1)).map Booking.status = some BookingStatus.CART := by
  have hnone_n : findBooking w.bookings w.nextBookingId = none :=
    findBooking_none _ _ (fun x hx => by have := hbid x hx; omega)
  have hnone_n1 : findBooking w.bookings (w.nextBookingId + 1) = none :=
    findBooking_none _ _ (fun x hx => by have := hbid x hx; omega)
  set req1 := c1Req sid date [1, 2] pd1 with hreq1
  set req2 := c1Req sid date [2, 3] pd2 with hreq2
  set b1 := mkCartBooking w u1 req1 (p * 2) with hb1def
  set W1 : World :=
    { w with bookings := w.bookings ++ [b1], nextBookingId := w.nextBookingId + 1 }
    with hW1def
  have hav1 : check_availability w sid [1, 2] "ECONOMY" (some date) =
      AvailResult.ok p (p * 2) := by
    have h := check_availability_ok w sid [1, 2] "ECONOMY" date sch veh p hsv hact
      hdate (fun s hs => hocc s (by simp at hs ⊢; tauto))
      (fun s hs => by simp at hs; rcases hs with rfl | rfl <;> omega) hprice
    norm_num at h
    exact h
  have e1 : create_booking w u1 req1 =
      (W1, CreateResult.ok w.nextBookingId (w.now + BOOKING_EXPIRY_MINUTES) (p * 2)) :=
    create_booking_ok w u1 req1 p (p * 2) hav1
  have hs1fst : (c1Stage1 w u1 sid date pd1).1 = W1 := by
    rw [c1Stage1, ← hreq1, e1]
  have hbk1 : bookedSeats W1.bookings sid (some date) =
      bookedSeats w.bookings sid (some date) := by
    show bookedSeats (w.bookings ++ [b1]) sid (some date) = _
    rw [bookedSeats_append, bookedSeats_single_inactive b1 _ _ rfl, List.append_nil]
  have hav2 : check_availability W1 sid [2, 3] "ECONOMY" (some date) =
      AvailResult.ok p (p * 2) := by
    have h := check_availability_ok W1 sid [2, 3] "ECONOMY" date sch veh p hsv hact
      hdate (fun s hs => by rw [hbk1]; exact hocc s (by simp at hs ⊢; tauto))
      (fun s hs => by simp at hs; rcases hs with rfl | rfl <;> omega) hprice
    norm_num at h
    exact h
  set b2 := mkCartBooking W1 u2 req2 (p * 2) with hb2def
  set W2 : World :=
    { W1 with bookings := W1.bookings ++ [b2], nextBookingId := W1.nextBookingId + 1 }
    with hW2def
  have e2 : create_booking W1 u2 req2 =
      (W2, CreateResult.ok (w.nextBookingId + 1)
        (w.now + BOOKING_EXPIRY_MINUTES) (p * 2)) :=
    create_booking_ok W1 u2 req2 p (p * 2) hav2
  have hs2fst : (c1Stage2 w u1 u2 sid date pd1 pd2).1 = W2 := by
    rw [c1Stage2, hs1fst, ← hreq2, e2]
  have hb1id : b1.id = w.nextBookingId := rfl
  have hb2id : b2.id = w.nextBookingId + 1 := rfl
  have hfindb1 : findBooking W2.bookings w.nextBookingId = some b1 := by
    show findBooking (w.bookings ++ [b1] ++ [b2]) w.nextBookingId = some b1
    rw [List.append_assoc, findBooking_append _ _ _ hnone_n]
    show findBooking (b1 :: [b2]) w.nextBookingId = some b1
    rw [findBooking, if_pos hb1id]
  have hfindb2 : findBooking W2.bookings (w.nextBookingId + 1) = some b2 := by
    show findBooking (w.bookings ++ [b1] ++ [b2]) (w.nextBookingId + 1) = some b2
    rw [List.append_assoc, findBooking_append _ _ _ hnone_n1]
    show findBooking (b1 :: [b2]) (w.nextBookingId + 1) = some b2
    rw [findBooking, if_neg (by omega), findBooking, if_pos hb2id]
  -- stage 3: pay for the first booking
  set pend := pendingOf b1 (p * 2) with hpend
  set W2P : World := { W2 with bookings := updateBookingList W2.bookings pend }
    with hW2P
  have hbk2 : bookedSeats W2.bookings sid (some date) =
      bookedSeats w.bookings sid (some date) := by
    show bookedSeats (w.bookings ++ [b1] ++ [b2]) sid (some date) = _
    rw [List.append_assoc, bookedSeats_append, bookedSeats_append]
    rw [bookedSeats_single_inactive b1 _ _ rfl, bookedSeats_single_inactive b2 _ _ rfl]
    simp
  have hav3 : check_availability W2 b1.scheduleId b1.seats b1.seatClass
      (some b1.travelDate) = AvailResult.ok p (p * 2) := by
    show check_availability W2 sid [1, 2] "ECONOMY" (some date) = _
    have h := check_availability_ok W2 sid [1, 2] "ECONOMY" date sch veh p hsv hact
      hdate (fun s hs => by rw [hbk2]; exact hocc s (by simp at hs ⊢; tauto))
      (fun s hs => by simp at hs; rcases hs with rfl | rfl <;> omega) hprice
    norm_num at h
    exact h
  have e3a : process_booking_payment W2 u1 w.nextBookingId none gw1 pnr1 =
      payment_existing_step W2P pend u1 none gw1 pnr1 :=
    process_payment_cart_ok W2 u1 w.nextBookingId b1 p (p * 2) gw1 pnr1
      hfindb1 rfl rfl hav3
  have hpendid : pend.id = w.nextBookingId := rfl
  have hnp : findPaymentByBooking W2P.payments pend.id = none := by
    show findPaymentByBooking w.payments pend.id = none
    exact findPaymentByBooking_none _ _
      (fun q hq => by have := hpid q hq; omega)
  have hnexp : ¬ pend.expiresAt < W2P.now := by
    show ¬ w.now + BOOKING_EXPIRY_MINUTES < w.now
    omega
  have e3b : payment_existing_step W2P pend u1 none gw1 pnr1 =
      payment_gateway_step W2P pend u1 0 none gw1 pnr1 :=
    payment_steps_no_existing W2P pend u1 gw1 pnr1 hnp hnexp
  set confirmedB := { pend with status := BookingStatus.CONFIRMED, pnr := some pnr1 }
    with hconfB
  have e3c := payment_gateway_step_success W2P pend u1 0 none gw1 pnr1 hgw
  have conc5 : (c1Stage3 w u1 u2 sid date pd1 pd2 gw1 pnr1).2 =
      PayResult.paid w.nextPaymentId gw1.transactionId := by
    rw [c1Stage3, hs2fst, e3a, e3b, e3c]
  have hupd1 : updateBookingList W2.bookings pend = w.bookings ++ [pend, b2] := by
    show updateBookingList (w.bookings ++ [b1] ++ [b2]) pend = _
    rw [updateBookingList_append, updateBookingList_append]
    rw [updateBookingList_of_ne w.bookings pend
      (fun x hx => by have := hbid x hx; omega)]
    have h1 : updateBookingList [b1] pend = [pend] := by
      simp [updateBookingList, show b1.id = pend.id from rfl]
    have h2 : updateBookingList [b2] pend = [b2] := by
      have hne : ¬ b2.id = pend.id := by omega
      simp [updateBookingList, hne]
    rw [h1, h2]
    simp
  have hconfid : confirmedB.id = w.nextBookingId := rfl
  have hupd2 : updateBookingList W2P.bookings confirmedB =
      w.bookings ++ [confirmedB, b2] := by
    show updateBookingList (updateBookingList W2.bookings pend) confirmedB = _
    rw [hupd1, updateBookingList_append]
    rw [updateBookingList_of_ne w.bookings confirmedB
      (fun x hx => by have := hbid x hx; omega)]
    have h2 : updateBookingList [pend, b2] confirmedB = [confirmedB, b2] := by
      rw [updateBookingList, List.map_cons, List.map_cons, List.map_nil]
      rw [if_pos (show pend.id = confirmedB.id from rfl)]
      rw [if_neg (show ¬ b2.id = confirmedB.id from by omega)]
    rw [h2]
  have hs3fst : (c1Stage3 w u1 u2 sid date pd1 pd2 gw1 pnr1).1.bookings =
      w.bookings ++ [confirmedB, b2] := by
    rw [c1Stage3, hs2fst, e3a, e3b, e3c]
    show updateBookingList W2P.bookings confirmedB = _
    exact hupd2
  have hfindc : findBooking (w.bookings ++ [confirmedB, b2]) w.nextBookingId =
      some confirmedB := by
    rw [findBooking_append _ _ _ hnone_n, findBooking, if_pos hconfid]
  have hfindb2w3 : findBooking (w.bookings ++ [confirmedB, b2])
      (w.nextBookingId + 1) = some b2 := by
    rw [findBooking_append _ _ _ hnone_n1, findBooking, if_neg (by omega),
      findBooking, if_pos hb2id]
  -- stage 4: the second payment attempt hits the seat conflict
  have hbk3 : bookedSeats (w.bookings ++ [confirmedB, b2]) sid (some date) =
      bookedSeats w.bookings sid (some date) ++ [1, 2] := by
    show bookedSeats (w.bookings ++ ([confirmedB] ++ [b2])) sid (some date) = _
    rw [bookedSeats_append, bookedSeats_append]
    rw [bookedSeats_single_active confirmedB sid date rfl rfl rfl]
    rw [bookedSeats_single_inactive b2 _ _ rfl]
    simp [hpend, pendingOf, hb1def, mkCartBooking, hreq1, c1Req]
  have h2mem : (2 : Nat) ∈ bookedSeats (w.bookings ++ [confirmedB, b2]) sid (some date) := by
    rw [hbk3]; simp
  have h3mem : (3 : Nat) ∉ bookedSeats (w.bookings ++ [confirmedB, b2]) sid (some date) := by
    rw [hbk3]
    simp only [List.mem_append]
    rintro (h | h)
    · exact hocc 3 (by simp) h
    · simp at h
  have hfilter : ([2, 3] : List Nat).filter
      (fun s => (bookedSeats (w.bookings ++ [confirmedB, b2]) sid (some date)).contains s) =
      [2] := by
    simp [List.filter, h2mem, h3mem]
  have hW3sv : findScheduleVehicle
      (c1Stage3 w u1 u2 sid date pd1 pd2 gw1 pnr1).1.schedules
      (c1Stage3 w u1 u2 sid date pd1 pd2 gw1 pnr1).1.vehicles sid = some (sch, veh) := by
    rw [c1Stage3, hs2fst, e3a, e3b, e3c]
    exact hsv
  have hW3today : ¬ date < (c1Stage3 w u1 u2 sid date pd1 pd2 gw1 pnr1).1.today := by
    rw [c1Stage3, hs2fst, e3a, e3b, e3c]
    exact hdate
  have hW3bookings : (c1Stage3 w u1 u2 sid date pd1 pd2 gw1 pnr1).1.bookings =
      w.bookings ++ [confirmedB, b2] := hs3fst
  have hav4 : check_availability (c1Stage3 w u1 u2 sid date pd1 pd2 gw1 pnr1).1
      b2.scheduleId b2.seats b2.seatClass (some b2.travelDate) =
      AvailResult.seatsTaken [2] := by
    show check_availability (c1Stage3 w u1 u2 sid date pd1 pd2 gw1 pnr1).1
      sid [2, 3] "ECONOMY" (some date) = _
    have h := check_availability_conflict
      (c1Stage3 w u1 u2 sid date pd1 pd2 gw1 pnr1).1 sid [2, 3] "ECONOMY" date
      sch veh hW3sv hact hW3today
      (by rw [hW3bookings, hfilter]; simp)
    rw [hW3bookings] at h
    rw [hfilter] at h
    exact h
  have hfind4 : findBooking (c1Stage3 w u1 u2 sid date pd1 pd2 gw1 pnr1).1.bookings
      (w.nextBookingId + 1) = some b2 := by
    rw [hW3bookings]
    exact hfindb2w3
  have e4 : process_booking_payment (c1Stage3 w u1 u2 sid date pd1 pd2 gw1 pnr1).1
      u2 (w.nextBookingId + 1) none gw2 pnr2 =
      ((c1Stage3 w u1 u2 sid date pd1 pd2 gw1 pnr1).1,
        PayResult.seatsUnavailable ("Seats are no longer available: " ++
          (AvailResult.seatsTaken [2]).message ++ ". Please select different seats.")) :=
    process_payment_cart_conflict _ u2 (w.nextBookingId + 1) b2 [2] gw2 pnr2
      hfind4 rfl rfl hav4
  refine ⟨?_, ?_, ?_, ?_, conc5, ?_, ?_, ?_⟩
  · rw [c1Stage1, ← hreq1, e1]
  · rw [c1Stage2, hs1fst, ← hreq2, e2]
  · rw [hs2fst, hfindb1]
    rfl
  · rw [hs2fst, hfindb2]
    rfl
  · rw [hs3fst, hfindc]
    rfl
  · rw [c1Stage4, e4]
  · rw [c1Stage4, e4]
    show (findBooking (c1Stage3 w u1 u2 sid date pd1 pd2 gw1 pnr1).1.bookings
      (w.nextBookingId + 1)).map Booking.status = some BookingStatus.CART
    rw [hfind4]
    rfl

/-- Concrete schedule for the C1 witness. -/
def c1Sched : Schedule := { id := 1, vehicleId := 1, isActive := true, basePrice := some 500 }

/-- Concrete vehicle for the C1 witness (ECONOMY priced via base price). -/
def c1Veh : Vehicle := { id := 1, totalSeats := 40, classPrices := [] }

/-- Fresh world for the C1 witness. -/
def c1World : World :=
  { schedules := [c1Sched], vehicles := [c1Veh], bookings := [], payments := [],
    coupons := [], today := 100, now := 1000, nextBookingId := 1, nextPaymentId := 1 }

/-- Successful gateway result for the C1 witness. -/
def c1Gw : GatewayResult :=
  { success := true, transactionId := "TXN1", response := "OK", errorMsg := "" }

/-- Witness for C1: in the concrete fresh world, after the [1,2] booking is
paid and confirmed, the [2,3] booking's payment attempt is rejected with the
seat-conflict message and that booking is still in CART. -/
theorem cart_overlap_payment_conflict_witness :
    (c1Stage4 c1World 5 6 1 100 [] [] c1Gw c1Gw "PNR1" "PNR2").2 =
      PayResult.seatsUnavailable ("Seats are no longer available: " ++
        (AvailResult.seatsTaken [2]).message ++ ". Please select different seats.") ∧
    (findBooking (c1Stage4 c1World 5 6 1 100 [] [] c1Gw c1Gw "PNR1" "PNR2").1.bookings
      2).map Booking.status = some BookingStatus.CART :=
  ⟨(cart_overlap_payment_conflict c1World 1 100 5 6 [] [] c1Sched c1Veh 500
      c1Gw c1Gw "PNR1" "PNR2" (by decide) rfl (by decide) (by decide) (by decide)
      (by decide) (by decide) (by decide) rfl).2.2.2.2.2.2.1,
    (cart_overlap_payment_conflict c1World 1 100 5 6 [] [] c1Sched c1Veh 500
      c1Gw c1Gw "PNR1" "PNR2" (by decide) rfl (by decide) (by decide) (by decide)
      (by decide) (by decide) (by decide) rfl).2.2.2.2.2.2.2⟩

/-- Concrete schedule for the C3 witness. -/
def c3Sched : Schedule := { id := 1, vehicleId := 1, isActive := true, basePrice := some 300 }

/-- Six-seat vehicle for the C3 witness. -/
def c3Veh : Vehicle := { id := 1, totalSeats := 6, classPrices := [] }

/-- A confirmed booking occupying seats 2 and 5, for the C3 witness. -/
def c3Booking : Booking :=
  { id := 1, userId := 2, scheduleId := 1, seats := [2, 5], seatClass := "ECONOMY",
    totalPrice := 600, status := .CONFIRMED, travelDate := 100, expiresAt := 0,
    cancelledAt := none, cancellationReason := none, pnr := some "TSYABC123" }

/-- World for the C3 witness. -/
def c3World : World :=
  { schedules := [c3Sched], vehicles := [c3Veh], bookings := [c3Booking],
    payments := [], coupons := [], today := 100, now := 1000,
    nextBookingId := 2, nextPaymentId := 1 }

/-- Witness for C3: with seats 2 and 5 confirmed on a six-seat vehicle, the
availability query returns available [1,3,4,6] and booked [2,5], which are
disjoint and together exactly 1..6. -/
theorem availability_partitions_seats_witness :
    (∀ s, s ∈ ([1, 3, 4, 6] : List Nat) → s ∉ ([2, 5] : List Nat)) ∧
    (∀ s, (s ∈ ([1, 3, 4, 6] : List Nat) ∨ s ∈ ([2, 5] : List Nat)) ↔
      (1 ≤ s ∧ s ≤ c3Veh.totalSeats)) :=
  availability_partitions_seats c3World 1 (some 100) c3Sched c3Veh
    [1, 3, 4, 6] [2, 5] (by decide) (by decide) (by decide)

end TicketKini
